import Mathlib

/-!
# Verification of the authentication backend core

Shallow embedding of the credential lifecycle engine of the repository
(`src/controllers/auth.controller.js`, the user model, and the DB
connection supervisor) and proofs of the spec's claims about it.

Times are in milliseconds (`Nat`), matching `Date.now()`.
-/

set_option autoImplicit false

namespace AuthBackend

/-! ## Constants (auth.controller.js lines 9-16) -/

def JWT_SECRET : String := "supersecretkey"

/-- `JWT_EXPIRE = "1d"`, expressed in milliseconds. -/
def JWT_VALIDITY_MS : Nat := 24 * 60 * 60 * 1000

/-- `OTP_EXPIRY_TIME = 10 * 60 * 1000` — OTP valid for 10 minutes. -/
def OTP_EXPIRY_TIME : Nat := 10 * 60 * 1000

/-- `OTP_LENGTH = 6` — 6-digit OTP. -/
def OTP_LENGTH : Nat := 6

/-! ## OTP cache (the module-level `otpCache = new Map()`)

The JS `Map` from email to `{ otp, timestamp }` is embedded as an
association list with the `Map.get` / `Map.set` / `Map.delete`
operations the controller uses. -/

/-- One cache entry: `{ otp, timestamp }` as stored by
`otpCache.set(email, { otp, timestamp: Date.now() })`. -/
structure OtpData where
  otp : Nat
  timestamp : Nat
deriving Repr, DecidableEq

/-- The in-memory OTP store mapping an email to its pending entry. -/
abbrev OtpCache := List (String × OtpData)

/-- `otpCache.get(email)` — first entry whose key is the email. -/
def mapGet : OtpCache → String → Option OtpData
  | [], _ => none
  | (k, v) :: rest, k' => if k = k' then some v else mapGet rest k'

/-- `otpCache.delete(email)` — remove the entry for the email. -/
def mapDelete : OtpCache → String → OtpCache
  | [], _ => []
  | (k, v) :: rest, k' =>
      if k = k' then mapDelete rest k' else (k, v) :: mapDelete rest k'

/-- `otpCache.set(email, v)` — overwrite any existing entry for the email. -/
def mapSet (m : OtpCache) (k : String) (v : OtpData) : OtpCache :=
  (k, v) :: mapDelete m k

/-- `cleanExpiredOtps` (auth.controller.js lines 72-79): evict every entry
whose age at time `now` exceeds `OTP_EXPIRY_TIME`. -/
def cleanExpiredOtps (now : Nat) : OtpCache → OtpCache
  | [] => []
  | (k, v) :: rest =>
      if now - v.timestamp > OTP_EXPIRY_TIME then cleanExpiredOtps now rest
      else (k, v) :: cleanExpiredOtps now rest

/-- The cache states the controller produces have at most one entry per
email: the keys are pairwise distinct. -/
def cacheWF (m : OtpCache) : Prop := (m.map Prod.fst).Nodup

instance (m : OtpCache) : Decidable (cacheWF m) := by
  unfold cacheWF; infer_instance

/-! ### Cache lemmas -/

theorem mapGet_mapDelete_self (m : OtpCache) (k : String) :
    mapGet (mapDelete m k) k = none := by
  induction m with
  | nil => rfl
  | cons p rest ih =>
      obtain ⟨k', v⟩ := p
      by_cases h : k' = k <;> simp [mapDelete, mapGet, h, ih]

theorem mapGet_mapDelete_ne (m : OtpCache) (k k' : String) (h : k ≠ k') :
    mapGet (mapDelete m k) k' = mapGet m k' := by
  induction m with
  | nil => rfl
  | cons p rest ih =>
      obtain ⟨a, v⟩ := p
      by_cases ha : a = k
      · subst ha; simp [mapDelete, mapGet, h, ih]
      · by_cases ha' : a = k'
        · subst ha'; simp [mapDelete, mapGet, ha, Ne.symm h, ih]
        · simp [mapDelete, mapGet, ha, ha', ih]

theorem mapGet_mapSet_self (m : OtpCache) (k : String) (v : OtpData) :
    mapGet (mapSet m k v) k = some v := by
  simp [mapSet, mapGet]

theorem mapGet_mapSet_ne (m : OtpCache) (k k' : String) (v : OtpData)
    (h : k ≠ k') : mapGet (mapSet m k v) k' = mapGet m k' := by
  simp [mapSet, mapGet, h, mapGet_mapDelete_ne m k k' h]

/-- An unexpired entry survives the sweep. -/
theorem mapGet_clean_live (now : Nat) (m : OtpCache) (k : String) (d : OtpData)
    (hget : mapGet m k = some d)
    (hlive : ¬ now - d.timestamp > OTP_EXPIRY_TIME) :
    mapGet (cleanExpiredOtps now m) k = some d := by
  induction m with
  | nil => simp [mapGet] at hget
  | cons p rest ih =>
      obtain ⟨a, v⟩ := p
      by_cases ha : a = k
      · subst ha
        simp only [mapGet, if_true, eq_self_iff_true, Option.some.injEq] at hget
        subst hget
        simp [cleanExpiredOtps, hlive, mapGet]
      · simp only [mapGet, if_neg ha] at hget
        by_cases hv : now - v.timestamp > OTP_EXPIRY_TIME <;>
          simp [cleanExpiredOtps, hv, mapGet, ha, ih hget]

/-- A key absent from the cache is absent after the sweep. -/
theorem mapGet_clean_none (now : Nat) (m : OtpCache) (k : String)
    (hget : mapGet m k = none) :
    mapGet (cleanExpiredOtps now m) k = none := by
  induction m with
  | nil => rfl
  | cons p rest ih =>
      obtain ⟨a, v⟩ := p
      by_cases ha : a = k
      · subst ha; simp [mapGet] at hget
      · simp only [mapGet, if_neg ha] at hget
        by_cases hv : now - v.timestamp > OTP_EXPIRY_TIME <;>
          simp [cleanExpiredOtps, hv, mapGet, ha, ih hget]

theorem mapGet_eq_none_of_not_mem_keys (m : OtpCache) (k : String)
    (h : k ∉ m.map Prod.fst) : mapGet m k = none := by
  induction m with
  | nil => rfl
  | cons p rest ih =>
      obtain ⟨a, v⟩ := p
      simp only [List.map_cons, List.mem_cons] at h
      push_neg at h
      simp [mapGet, Ne.symm h.1, ih h.2]

/-- In a well-formed cache an expired entry is evicted by the sweep. -/
theorem mapGet_clean_expired (now : Nat) (m : OtpCache) (k : String)
    (d : OtpData) (hwf : cacheWF m) (hget : mapGet m k = some d)
    (hexp : now - d.timestamp > OTP_EXPIRY_TIME) :
    mapGet (cleanExpiredOtps now m) k = none := by
  induction m with
  | nil => simp [mapGet] at hget
  | cons p rest ih =>
      obtain ⟨a, v⟩ := p
      have hwf' : cacheWF rest := by
        simpa [cacheWF] using (List.nodup_cons.mp hwf).2
      by_cases ha : a = k
      · subst ha
        simp only [mapGet, if_true, eq_self_iff_true, Option.some.injEq] at hget
        subst hget
        have hnotin : mapGet rest a = none :=
          mapGet_eq_none_of_not_mem_keys rest a (List.nodup_cons.mp hwf).1
        simp [cleanExpiredOtps, hexp, mapGet_clean_none now rest a hnotin]
      · simp only [mapGet, if_neg ha] at hget
        by_cases hv : now - v.timestamp > OTP_EXPIRY_TIME <;>
          simp [cleanExpiredOtps, hv, mapGet, ha, ih hwf' hget]

/-! ## OTP generation (`generateOtp`, auth.controller.js lines 24-26)

`crypto.randomInt(min, max)` returns a uniformly random integer in the
half-open range `[min, max)`; `r` is the raw random source, so the result
set as `r` ranges is exactly the code's range
`[10^(OTP_LENGTH-1), 10^OTP_LENGTH - 1)`. -/

def generateOtp (r : Nat) : Nat :=
  10 ^ (OTP_LENGTH - 1) + r % (10 ^ OTP_LENGTH - 1 - 10 ^ (OTP_LENGTH - 1))

theorem generateOtp_lb (r : Nat) : 100000 ≤ generateOtp r := by
  unfold generateOtp OTP_LENGTH
  omega

theorem generateOtp_ub (r : Nat) : generateOtp r ≤ 999998 := by
  unfold generateOtp OTP_LENGTH
  have h : r % (10 ^ (6 - 1 + 1) - 1 - 10 ^ (6 - 1)) < 899999 :=
    Nat.mod_lt r (by norm_num)
  omega

theorem generateOtp_ne_zero (r : Nat) : generateOtp r ≠ 0 := by
  have := generateOtp_lb r
  omega

/-! ## Password hashing (the `bcrypt` library)

`bcrypt.hash` / `bcrypt.compare` are a third-party library; they are
embedded by the standard idealisation of a salted one-way hash: the
digest is an opaque value determined by the password, and `compare`
holds exactly when the password re-hashes to the digest. -/

structure BcryptHash where
  digestOf : String
deriving Repr, DecidableEq

def bcryptHash (password : String) : BcryptHash := ⟨password⟩

def bcryptCompare (password : String) (h : BcryptHash) : Bool :=
  password == h.digestOf

/-! ## Session tokens

Modelled from the spec: the Token Issuer (§4.2) is realised by the
`jsonwebtoken` library, whose `sign`/`verify` implementation is not part
of this repository's sources — only the calls
`jwt.sign({ id }, JWT_SECRET, { expiresIn: JWT_EXPIRE })` and
`jwt.verify(token, JWT_SECRET, ...)` are.  Per the spec, a token is a
signed payload embedding the account identifier and an expiry instant;
the signature is a deterministic MAC over the payload under the secret,
modelled as the (secret, payload) tuple itself (a perfect MAC). -/

structure SessionToken where
  sub : Nat
  exp : Nat
  sig : String × Nat × Nat
deriving Repr, DecidableEq

def hmacTag (secret : String) (sub exp : Nat) : String × Nat × Nat :=
  (secret, sub, exp)

/-- Modelled from the spec: `issue(accountId)` — signed token with a fixed
validity window (`JWT_EXPIRE = "1d"`). -/
def tokenIssue (secret : String) (sub now : Nat) : SessionToken :=
  { sub := sub
    exp := now + JWT_VALIDITY_MS
    sig := hmacTag secret sub (now + JWT_VALIDITY_MS) }

inductive TokenError where
  | malformed
  | invalidSignature
  | expired
deriving Repr, DecidableEq

/-- Modelled from the spec: `verify(token)` — fails with
`InvalidSignature` on a bad MAC, `Expired` once the embedded expiry has
passed, and otherwise returns the embedded account identifier. -/
def tokenVerify (secret : String) (t : SessionToken) (now : Nat) :
    Except TokenError Nat :=
  if t.sig ≠ hmacTag secret t.sub t.exp then .error .invalidSignature
  else if t.exp ≤ now then .error .expired
  else .ok t.sub

/-! ## User store (user.model.js and the mongoose calls)

The Credential Store is the external MongoDB collection; it is embedded
as a list of user documents with the three queries the controller
issues: `findOne({ email })`, `create`, and
`findOneAndUpdate({ email }, { isVerified: true }, { new: true })`. -/

structure User where
  id : Nat
  name : String
  email : String
  password : BcryptHash
  isVerified : Bool
deriving Repr, DecidableEq

abbrev UserStore := List User

/-- `User.findOne({ email })`. -/
def findOne (store : UserStore) (email : String) : Option User :=
  store.find? (fun u => u.email == email)

/-- `{ ...user, isVerified: true }` — the document after the update. -/
def setVerified (u : User) : User := { u with isVerified := true }

/-- `User.findOneAndUpdate({ email }, { isVerified: true }, { new: true })`:
returns the updated document (or `none`) together with the store after
the update. -/
def findOneAndUpdateVerified : UserStore → String → Option User × UserStore
  | [], _ => (none, [])
  | u :: rest, email =>
      if u.email == email then (some (setVerified u), setVerified u :: rest)
      else
        let r := findOneAndUpdateVerified rest email
        (r.1, u :: r.2)

theorem findOneAndUpdateVerified_found (store : UserStore) (email : String)
    (u : User) (h : findOne store email = some u) :
    (findOneAndUpdateVerified store email).1 = some (setVerified u) := by
  induction store with
  | nil => simp [findOne] at h
  | cons v rest ih =>
      by_cases hv : v.email == email
      · simp only [findOne, List.find?_cons, hv, cond_true,
          Option.some.injEq] at h
        subst h
        simp [findOneAndUpdateVerified, hv]
      · simp only [findOne, List.find?_cons, hv, cond_false] at h
        simp [findOneAndUpdateVerified, hv, ih h]

theorem findOneAndUpdateVerified_none (store : UserStore) (email : String)
    (h : findOne store email = none) :
    findOneAndUpdateVerified store email = (none, store) := by
  induction store with
  | nil => rfl
  | cons v rest ih =>
      by_cases hv : v.email == email
      · simp [findOne, List.find?_cons, hv] at h
      · simp only [findOne, List.find?_cons, hv, cond_false] at h
        simp [findOneAndUpdateVerified, hv, ih h]

/-- Number of accounts in the store holding a given email. -/
def countEmail (store : UserStore) (email : String) : Nat :=
  (store.filter (fun u => u.email == email)).length

theorem countEmail_eq_zero_of_findOne_none (store : UserStore)
    (email : String) (h : findOne store email = none) :
    countEmail store email = 0 := by
  induction store with
  | nil => rfl
  | cons v rest ih =>
      by_cases hv : v.email == email
      · simp [findOne, List.find?_cons, hv] at h
      · simp only [findOne, List.find?_cons, hv, cond_false] at h
        simp [countEmail, List.filter_cons, hv] at ih ⊢
        exact ih h

/-! ## Controllers (auth.controller.js lines 84-218)

Each controller is a pure function of the request fields, the current
store and cache, and the ambient effects the code consumes: the random
source `r` for `crypto.randomInt`, the clock `now` for `Date.now()`, a
fresh document id `newId` for `User.create`, and `emailOk` — whether
`await sendEmail` resolves (`true`) or rejects (`false`, which lands in
the surrounding `catch`). -/

inductive Response where
  | err (status : Nat) (message : String)
  | registered (userId : Nat)
  | verified (token : SessionToken) (id : Nat) (name email : String)
  | loggedIn (token : SessionToken) (id : Nat) (name email : String)
  | resent
deriving Repr, DecidableEq

/-- `registerUser` (lines 84-118): reject an existing email, else hash the
password, create the unverified user, cache a fresh OTP, and send the
notification email; a send failure is caught and mapped to the 500
response after the store and cache writes have already happened. -/
def registerUser (name email password : String) (store : UserStore)
    (cache : OtpCache) (newId r now : Nat) (emailOk : Bool) :
    Response × UserStore × OtpCache :=
  match findOne store email with
  | some _ => (.err 400 "User already exists", store, cache)
  | none =>
      let newUser : User :=
        { id := newId, name := name, email := email
          password := bcryptHash password, isVerified := false }
      let store2 := store ++ [newUser]
      let otp := generateOtp r
      let cache2 := mapSet cache email ⟨otp, now⟩
      if emailOk then (.registered newId, store2, cache2)
      else (.err 500 "Internal server error", store2, cache2)

/-- `verifyOtp` (lines 121-154): guard the request fields, sweep expired
entries, look up and check the cached OTP, delete it, flip the user to
verified, and issue the JWT.  The supplied OTP is taken after
`parseInt`; the `!otp` guard is the JS falsiness test on the field. -/
def verifyOtp (email : String) (otp : Nat) (now : Nat) (store : UserStore)
    (cache : OtpCache) : Response × UserStore × OtpCache :=
  if email = "" ∨ otp = 0 then
    (.err 400 "Email and OTP are required", store, cache)
  else
    let cache1 := cleanExpiredOtps now cache
    match mapGet cache1 email with
    | none => (.err 400 "OTP not generated or expired", store, cache1)
    | some otpData =>
        if otp ≠ otpData.otp then (.err 400 "Invalid OTP", store, cache1)
        else
          let cache2 := mapDelete cache1 email
          let r := findOneAndUpdateVerified store email
          match r.1 with
          | none => (.err 404 "User not found", r.2, cache2)
          | some user =>
              (.verified (tokenIssue JWT_SECRET user.id now) user.id
                user.name user.email, r.2, cache2)

/-- `loginUser` (lines 157-183): unknown email → generic 401; unverified
account → 401 "Please verify your account first" (checked before the
password); wrong password → the same generic 401; else issue the JWT. -/
def loginUser (email password : String) (store : UserStore) (now : Nat) :
    Response :=
  match findOne store email with
  | none => .err 401 "Invalid email or password"
  | some user =>
      if !user.isVerified then .err 401 "Please verify your account first"
      else if !(bcryptCompare password user.password) then
        .err 401 "Invalid email or password"
      else
        .loggedIn (tokenIssue JWT_SECRET user.id now) user.id user.name
          user.email

/-- `resendOtp` (lines 198-218): guard the email, require an existing
user, overwrite the cached OTP, and send the notification; as in
`registerUser` a send failure is caught after the cache write. -/
def resendOtp (email : String) (store : UserStore) (cache : OtpCache)
    (r now : Nat) (emailOk : Bool) : Response × OtpCache :=
  if email = "" then (.err 400 "Email is required", cache)
  else
    match findOne store email with
    | none => (.err 404 "User not found", cache)
    | some _ =>
        let cache2 := mapSet cache email ⟨generateOtp r, now⟩
        if emailOk then (.resent, cache2)
        else (.err 500 "Internal server error", cache2)

/-! ## Connection supervisor (`connectDB`, db.connection.js)

The supervisor's observable state is the module-level `retryCount`; one
attempt either succeeds (resets the counter, schedules nothing) or fails
(increments the counter and schedules exactly one retry after
`min(5000 * 2 ** (retryCount - 1), MAX_RETRY_DELAY)` milliseconds). -/

def MAX_RETRY_DELAY : Nat := 60000

inductive ConnectOutcome where
  | success
  | failure
deriving Repr, DecidableEq

/-- One pass through `connectDB`'s try/catch: new `retryCount` plus the
scheduled retry delay, if any. -/
def connectStep : Nat → ConnectOutcome → Nat × Option Nat
  | _, .success => (0, none)
  | n, .failure => (n + 1, some (min (5000 * 2 ^ (n + 1 - 1)) MAX_RETRY_DELAY))

/-- A run of consecutive attempts: final `retryCount` and the list of
scheduled delays, one per attempt. -/
def connectRun : Nat → List ConnectOutcome → Nat × List (Option Nat)
  | n, [] => (n, [])
  | n, o :: rest =>
      let s := connectStep n o
      let t := connectRun s.1 rest
      (t.1, s.2 :: t.2)

/-! ## Sample data used by witnesses -/

def aliceUnverified : User :=
  { id := 1, name := "Alice", email := "alice@x.com"
    password := bcryptHash "secret1", isVerified := false }

def aliceVerified : User :=
  { id := 1, name := "Alice", email := "alice@x.com"
    password := bcryptHash "secret1", isVerified := true }

/-! ## Claims -/

/-- C1: the claim says `NotVerified` is returned only when the supplied
password matches the stored hash, and that a non-matching password
always yields the generic `InvalidCredentials` error.  The code checks
`isVerified` before comparing passwords, so an unverified account with a
wrong password gets `NotVerified`, not the generic error. -/
theorem C1_counterexample :
    bcryptCompare "wrongpw" aliceUnverified.password = false ∧
    loginUser "alice@x.com" "wrongpw" [aliceUnverified] 0
      = .err 401 "Please verify your account first" := by
  constructor <;> decide

/-- C1 (amended): `loginUser` returns the generic `InvalidCredentials`
error when no account matches the email; returns `NotVerified` whenever
the account exists and `verified = false`, regardless of whether the
password matches; and returns the same generic `InvalidCredentials`
error when the account exists, is verified, and the password hash does
not match. -/
theorem C1_amended_thm (store : UserStore) (email password : String)
    (now : Nat) :
    (findOne store email = none →
      loginUser email password store now
        = .err 401 "Invalid email or password") ∧
    (∀ u, findOne store email = some u → u.isVerified = false →
      loginUser email password store now
        = .err 401 "Please verify your account first") ∧
    (∀ u, findOne store email = some u → u.isVerified = true →
      bcryptCompare password u.password = false →
      loginUser email password store now
        = .err 401 "Invalid email or password") := by
  refine ⟨fun h => by simp [loginUser, h], fun u hu hv => ?_, fun u hu hv hc => ?_⟩
  · simp [loginUser, hu, hv]
  · simp [loginUser, hu, hv, hc]

theorem C1_amended_witness :
    loginUser "nobody@x.com" "pw" [aliceVerified] 0
      = .err 401 "Invalid email or password" ∧
    loginUser "alice@x.com" "wrongpw" [aliceUnverified] 0
      = .err 401 "Please verify your account first" ∧
    loginUser "alice@x.com" "wrongpw" [aliceVerified] 0
      = .err 401 "Invalid email or password" :=
  ⟨(C1_amended_thm [aliceVerified] "nobody@x.com" "pw" 0).1 (by decide),
   (C1_amended_thm [aliceUnverified] "alice@x.com" "wrongpw" 0).2.1
     aliceUnverified (by decide) (by decide),
   (C1_amended_thm [aliceVerified] "alice@x.com" "wrongpw" 0).2.2
     aliceVerified (by decide) (by decide) (by decide)⟩

/-- C2: the claim says a notification-send failure is swallowed and the
request still returns success.  In the code `await sendOtpEmail` sits
inside the `try`, so a rejected send lands in the `catch` and the
request returns the 500 Internal error — although the account and OTP
entry written before the send do remain in place. -/
theorem C2_counterexample :
    (registerUser "Alice" "alice@x.com" "secret1" [] [] 1 0 5 false).1
      = .err 500 "Internal server error" ∧
    findOne (registerUser "Alice" "alice@x.com" "secret1" [] [] 1 0 5
        false).2.1 "alice@x.com"
      = some { id := 1, name := "Alice", email := "alice@x.com"
               password := bcryptHash "secret1", isVerified := false } ∧
    mapGet (registerUser "Alice" "alice@x.com" "secret1" [] [] 1 0 5
        false).2.2 "alice@x.com"
      = some ⟨generateOtp 0, 5⟩ := by
  refine ⟨rfl, by decide, by decide⟩

/-- C2 (amended): a failure of the outbound notification send is not
swallowed — Register and ResendOtp then return the 500 Internal error —
but the Account and OTP entry written before the send remain in place
(no rollback). -/
theorem C2_amended_thm (name email password : String) (store : UserStore)
    (cache : OtpCache) (newId r now : Nat) :
    (findOne store email = none →
      (registerUser name email password store cache newId r now false).1
          = .err 500 "Internal server error" ∧
      (registerUser name email password store cache newId r now false).2.1
          = store ++ [{ id := newId, name := name, email := email
                        password := bcryptHash password
                        isVerified := false }] ∧
      mapGet (registerUser name email password store cache newId r now
          false).2.2 email = some ⟨generateOtp r, now⟩) ∧
    (email ≠ "" → (findOne store email).isSome →
      (resendOtp email store cache r now false).1
          = .err 500 "Internal server error" ∧
      mapGet (resendOtp email store cache r now false).2 email
          = some ⟨generateOtp r, now⟩) := by
  constructor
  · intro h
    refine ⟨by simp [registerUser, h], by simp [registerUser, h], ?_⟩
    simp [registerUser, h, mapGet_mapSet_self]
  · intro he hex
    obtain ⟨u, hu⟩ := Option.isSome_iff_exists.mp hex
    refine ⟨by simp [resendOtp, he, hu], ?_⟩
    simp [resendOtp, he, hu, mapGet_mapSet_self]

theorem C2_amended_witness :
    (registerUser "Alice" "alice@x.com" "secret1" [] [] 1 0 5 false).1
      = .err 500 "Internal server error" ∧
    (resendOtp "alice@x.com" [aliceUnverified] [] 0 5 false).1
      = .err 500 "Internal server error" :=
  ⟨((C2_amended_thm "Alice" "alice@x.com" "secret1" [] [] 1 0 5).1 rfl).1,
   ((C2_amended_thm "Alice" "alice@x.com" "secret1" [aliceUnverified] [] 1 0 5).2
     (by decide) (by decide)).1⟩

/-- C5: the claim says the generated passcode's range includes all
6-digit combinations, including those with leading zeros.
`crypto.randomInt(10 ** 5, 10 ** 6 - 1)` draws from the half-open range
`[100000, 999999)`, so no leading-zero combination (e.g. 099999) is
possible, and 999999 is excluded as well. -/
theorem C5_counterexample :
    (¬ ∃ r, generateOtp r = 99999) ∧ (¬ ∃ r, generateOtp r = 999999) := by
  constructor <;> rintro ⟨r, h⟩
  · have := generateOtp_lb r; omega
  · have := generateOtp_ub r; omega

/-- C5 (amended): OTP issuance generates a uniformly random passcode in
the range 100000–999998 — always exactly six digits, never with a
leading zero, and never 999999 — and overwrites any existing cache
entry for that email while recording the current time. -/
theorem C5_amended_thm (name email password : String) (store : UserStore)
    (cache : OtpCache) (newId r now : Nat) (emailOk : Bool)
    (hfresh : findOne store email = none) :
    100000 ≤ generateOtp r ∧ generateOtp r ≤ 999998 ∧
    (registerUser name email password store cache newId r now emailOk).2.2
      = mapSet cache email ⟨generateOtp r, now⟩ ∧
    mapGet (registerUser name email password store cache newId r now
        emailOk).2.2 email = some ⟨generateOtp r, now⟩ := by
  have hc : (registerUser name email password store cache newId r now
      emailOk).2.2 = mapSet cache email ⟨generateOtp r, now⟩ := by
    cases emailOk <;> simp [registerUser, hfresh]
  exact ⟨generateOtp_lb r, generateOtp_ub r, hc,
    by rw [hc]; exact mapGet_mapSet_self cache email ⟨generateOtp r, now⟩⟩

theorem C5_amended_witness :
    100000 ≤ generateOtp 42 ∧ generateOtp 42 ≤ 999998 ∧
    (registerUser "Alice" "alice@x.com" "secret1" []
        [("alice@x.com", OtpData.mk 111111 0)] 1 42 5 true).2.2
      = mapSet [("alice@x.com", OtpData.mk 111111 0)] "alice@x.com"
          ⟨generateOtp 42, 5⟩ ∧
    mapGet (registerUser "Alice" "alice@x.com" "secret1" []
        [("alice@x.com", OtpData.mk 111111 0)] 1 42 5 true).2.2 "alice@x.com"
      = some ⟨generateOtp 42, 5⟩ :=
  C5_amended_thm "Alice" "alice@x.com" "secret1" []
    [("alice@x.com", OtpData.mk 111111 0)] 1 42 5 true rfl

/-- C7: the n-th consecutive connect failure schedules exactly one retry
after `min(5000 * 2 ^ (n - 1), 60000)` milliseconds — so three initial
failures schedule delays 5000, 10000, 20000 — and a success resets the
failure counter to zero, so the first failure after a success is again
scheduled at the base delay. -/
theorem C7_thm (n s : Nat) (hn : 0 < n) :
    connectStep (n - 1) .failure
      = (n, some (min (5000 * 2 ^ (n - 1)) MAX_RETRY_DELAY)) ∧
    connectStep s .success = (0, none) ∧
    (connectRun 0 [.failure, .failure, .failure]).2
      = [some 5000, some 10000, some 20000] ∧
    (connectRun 0 [.failure, .failure, .failure, .failure, .failure]).2
      = [some 5000, some 10000, some 20000, some 40000, some 60000] ∧
    (connectRun s [.success, .failure]).2 = [none, some 5000] := by
  have h : n - 1 + 1 = n := by omega
  refine ⟨by simp [connectStep, h], rfl, by decide, by decide, ?_⟩
  simp [connectRun, connectStep, MAX_RETRY_DELAY]

theorem C7_witness :
    connectStep 2 .failure = (3, some (min (5000 * 2 ^ 2) MAX_RETRY_DELAY)) :=
  (C7_thm 3 0 (by decide)).1

/-- C8: registering an email for which an account already exists fails
with `AlreadyExists` and leaves the store unchanged, and registering a
fresh email creates exactly one account for it — the store keeps
exactly one account per email. -/
theorem C8_thm (name email password : String) (store : UserStore)
    (cache : OtpCache) (newId r now : Nat) (emailOk : Bool) :
    ((findOne store email).isSome →
      registerUser name email password store cache newId r now emailOk
        = (.err 400 "User already exists", store, cache)) ∧
    (findOne store email = none →
      countEmail store email = 0 ∧
      countEmail (registerUser name email password store cache newId r now
          emailOk).2.1 email = 1) := by
  constructor
  · intro hex
    obtain ⟨u, hu⟩ := Option.isSome_iff_exists.mp hex
    simp [registerUser, hu]
  · intro h
    refine ⟨countEmail_eq_zero_of_findOne_none store email h, ?_⟩
    have hstore : (registerUser name email password store cache newId r now
        emailOk).2.1 = store ++ [{ id := newId, name := name,
                                   email := email,
                                   password := bcryptHash password,
                                   isVerified := false }] := by
      cases emailOk <;> simp [registerUser, h]
    rw [hstore]
    have h0 := countEmail_eq_zero_of_findOne_none store email h
    simp only [countEmail, List.filter_append, List.length_append] at h0 ⊢
    simp [h0]

theorem C8_witness :
    registerUser "Alice" "alice@x.com" "wrong" [aliceUnverified] [] 2 0 0 true
      = (.err 400 "User already exists", [aliceUnverified], []) ∧
    countEmail [] "bob@x.com" = 0 ∧
    countEmail (registerUser "Bob" "bob@x.com" "pw" [] [] 1 0 0 true).2.1
      "bob@x.com" = 1 :=
  ⟨(C8_thm "Alice" "alice@x.com" "wrong" [aliceUnverified] [] 2 0 0 true).1
     (by decide),
   (C8_thm "Bob" "bob@x.com" "pw" [] [] 1 0 0 true).2 rfl⟩

/-- C9: a token issued for an account identifier verifies to the same
identifier at any instant strictly before its embedded expiry, and
fails with `Expired` at any instant from the expiry on. -/
theorem C9_thm (secret : String) (accountId t0 t1 : Nat) :
    (t1 < t0 + JWT_VALIDITY_MS →
      tokenVerify secret (tokenIssue secret accountId t0) t1
        = .ok accountId) ∧
    (t0 + JWT_VALIDITY_MS ≤ t1 →
      tokenVerify secret (tokenIssue secret accountId t0) t1
        = .error .expired) := by
  constructor <;> intro h
  · simp [tokenVerify, tokenIssue, hmacTag, Nat.not_le.mpr h]
  · simp [tokenVerify, tokenIssue, hmacTag, h]

theorem C9_witness :
    tokenVerify "supersecretkey" (tokenIssue "supersecretkey" 7 0) 5
      = .ok 7 ∧
    tokenVerify "supersecretkey" (tokenIssue "supersecretkey" 7 0)
        JWT_VALIDITY_MS = .error .expired :=
  ⟨(C9_thm "supersecretkey" 7 0 5).1 (by decide),
   (C9_thm "supersecretkey" 7 0 JWT_VALIDITY_MS).2 (by simp)⟩

/-! ## Reduction lemmas for `verifyOtp` -/

theorem verifyOtp_no_entry (email : String) (otp now : Nat)
    (store : UserStore) (cache : OtpCache) (he : email ≠ "")
    (hpos : otp ≠ 0) (hget : mapGet cache email = none) :
    verifyOtp email otp now store cache
      = (.err 400 "OTP not generated or expired", store,
          cleanExpiredOtps now cache) := by
  have h2 := mapGet_clean_none now cache email hget
  simp [verifyOtp, he, hpos, h2]

theorem verifyOtp_mismatch (email : String) (supplied now : Nat)
    (store : UserStore) (cache : OtpCache) (d : OtpData)
    (he : email ≠ "") (hpos : supplied ≠ 0)
    (hget : mapGet cache email = some d)
    (hlive : now - d.timestamp ≤ OTP_EXPIRY_TIME)
    (hmis : supplied ≠ d.otp) :
    verifyOtp email supplied now store cache
      = (.err 400 "Invalid OTP", store, cleanExpiredOtps now cache) := by
  have h1 : mapGet (cleanExpiredOtps now cache) email = some d :=
    mapGet_clean_live now cache email d hget (by omega)
  simp [verifyOtp, he, hpos, h1, hmis]

theorem verifyOtp_match_found (email : String) (now : Nat)
    (store : UserStore) (cache : OtpCache) (d : OtpData) (u : User)
    (he : email ≠ "") (hpos : d.otp ≠ 0)
    (hget : mapGet cache email = some d)
    (hlive : now - d.timestamp ≤ OTP_EXPIRY_TIME)
    (hu : findOne store email = some u) :
    verifyOtp email d.otp now store cache
      = (.verified (tokenIssue JWT_SECRET u.id now) u.id u.name u.email,
          (findOneAndUpdateVerified store email).2,
          mapDelete (cleanExpiredOtps now cache) email) := by
  have h1 : mapGet (cleanExpiredOtps now cache) email = some d :=
    mapGet_clean_live now cache email d hget (by omega)
  have h2 := findOneAndUpdateVerified_found store email u hu
  simp [verifyOtp, he, hpos, h1, h2, setVerified]

theorem verifyOtp_match_absent (email : String) (now : Nat)
    (store : UserStore) (cache : OtpCache) (d : OtpData)
    (he : email ≠ "") (hpos : d.otp ≠ 0)
    (hget : mapGet cache email = some d)
    (hlive : now - d.timestamp ≤ OTP_EXPIRY_TIME)
    (habsent : findOne store email = none) :
    verifyOtp email d.otp now store cache
      = (.err 404 "User not found", store,
          mapDelete (cleanExpiredOtps now cache) email) := by
  have h1 : mapGet (cleanExpiredOtps now cache) email = some d :=
    mapGet_clean_live now cache email d hget (by omega)
  have h2 := findOneAndUpdateVerified_none store email habsent
  simp [verifyOtp, he, hpos, h1, h2]

/-- C3: issuing a fresh OTP for an email and verifying with the correct
code succeeds exactly once — the success path deletes the cache entry,
so an immediately repeated verify with the same code fails with the
`NotFound`-style "OTP not generated or expired" error. -/
theorem C3_thm (cache : OtpCache) (store : UserStore) (email : String)
    (u : User) (r tI tV t2 : Nat)
    (he : email ≠ "") (hu : findOne store email = some u)
    (hfresh : tV - tI ≤ OTP_EXPIRY_TIME) :
    verifyOtp email (generateOtp r) tV store
        (mapSet cache email ⟨generateOtp r, tI⟩)
      = (.verified (tokenIssue JWT_SECRET u.id tV) u.id u.name u.email,
          (findOneAndUpdateVerified store email).2,
          mapDelete (cleanExpiredOtps tV
            (mapSet cache email ⟨generateOtp r, tI⟩)) email) ∧
    mapGet (mapDelete (cleanExpiredOtps tV
        (mapSet cache email ⟨generateOtp r, tI⟩)) email) email = none ∧
    (verifyOtp email (generateOtp r) t2
        (findOneAndUpdateVerified store email).2
        (mapDelete (cleanExpiredOtps tV
          (mapSet cache email ⟨generateOtp r, tI⟩)) email)).1
      = .err 400 "OTP not generated or expired" := by
  have h1 := verifyOtp_match_found email tV store
    (mapSet cache email ⟨generateOtp r, tI⟩) ⟨generateOtp r, tI⟩ u he
    (generateOtp_ne_zero r) (mapGet_mapSet_self cache email _) hfresh hu
  refine ⟨h1, mapGet_mapDelete_self _ _, ?_⟩
  rw [verifyOtp_no_entry email (generateOtp r) t2
    (findOneAndUpdateVerified store email).2 _ he (generateOtp_ne_zero r)
    (mapGet_mapDelete_self _ _)]

theorem C3_witness :
    verifyOtp "alice@x.com" (generateOtp 0) 0 [aliceUnverified]
        (mapSet [] "alice@x.com" ⟨generateOtp 0, 0⟩)
      = (.verified (tokenIssue JWT_SECRET 1 0) 1 "Alice" "alice@x.com",
          (findOneAndUpdateVerified [aliceUnverified] "alice@x.com").2,
          mapDelete (cleanExpiredOtps 0
            (mapSet [] "alice@x.com" ⟨generateOtp 0, 0⟩)) "alice@x.com") :=
  (C3_thm [] [aliceUnverified] "alice@x.com" aliceUnverified 0 0 0 0
    (by decide) (by decide) (by decide)).1

/-- C4: verifying a live entry with a non-matching code fails with
`OtpMismatch` ("Invalid OTP") and does not delete the entry, so a
subsequent verify with the correct code before expiry still succeeds. -/
theorem C4_thm (cache : OtpCache) (store : UserStore) (email : String)
    (u : User) (d : OtpData) (supplied tV t2 : Nat)
    (he : email ≠ "") (hs : supplied ≠ 0) (hpos : d.otp ≠ 0)
    (hget : mapGet cache email = some d)
    (hlive : tV - d.timestamp ≤ OTP_EXPIRY_TIME)
    (hmis : supplied ≠ d.otp)
    (hu : findOne store email = some u)
    (hlive2 : t2 - d.timestamp ≤ OTP_EXPIRY_TIME) :
    verifyOtp email supplied tV store cache
      = (.err 400 "Invalid OTP", store, cleanExpiredOtps tV cache) ∧
    mapGet (cleanExpiredOtps tV cache) email = some d ∧
    (verifyOtp email d.otp t2 store (cleanExpiredOtps tV cache)).1
      = .verified (tokenIssue JWT_SECRET u.id t2) u.id u.name u.email := by
  have hclean : mapGet (cleanExpiredOtps tV cache) email = some d :=
    mapGet_clean_live tV cache email d hget (by omega)
  refine ⟨verifyOtp_mismatch email supplied tV store cache d he hs hget
    hlive hmis, hclean, ?_⟩
  rw [verifyOtp_match_found email t2 store (cleanExpiredOtps tV cache) d u
    he hpos hclean hlive2 hu]

theorem C4_witness :
    verifyOtp "alice@x.com" 111111 0 [aliceUnverified]
        [("alice@x.com", OtpData.mk 123456 0)]
      = (.err 400 "Invalid OTP", [aliceUnverified],
          cleanExpiredOtps 0 [("alice@x.com", OtpData.mk 123456 0)]) ∧
    mapGet (cleanExpiredOtps 0 [("alice@x.com", OtpData.mk 123456 0)])
        "alice@x.com" = some (OtpData.mk 123456 0) ∧
    (verifyOtp "alice@x.com" (OtpData.mk 123456 0).otp 0 [aliceUnverified]
        (cleanExpiredOtps 0 [("alice@x.com", OtpData.mk 123456 0)])).1
      = .verified (tokenIssue JWT_SECRET 1 0) 1 "Alice" "alice@x.com" :=
  C4_thm [("alice@x.com", OtpData.mk 123456 0)] [aliceUnverified]
    "alice@x.com" aliceUnverified (OtpData.mk 123456 0) 111111 0 0
    (by decide) (by decide) (by decide) (by decide) (by decide) (by decide)
    (by decide) (by decide)

/-- C6: the claim says an entry older than the expiry window fails
verification with a *distinct* `OtpExpired` error.  The sweep evicts the
entry before the lookup, so the response is byte-for-byte the same
"OTP not generated or expired" 400 as when no entry was ever issued —
there is no distinct expired error. -/
theorem C6_counterexample :
    verifyOtp "alice@x.com" 123456 600001 []
        [("alice@x.com", OtpData.mk 123456 0)]
      = (.err 400 "OTP not generated or expired", [], []) ∧
    verifyOtp "alice@x.com" 123456 600001 [] []
      = (.err 400 "OTP not generated or expired", [], []) := by
  constructor <;> decide

/-- C6 (amended): for every OTP entry whose age exceeds the expiry
window, verification fails regardless of whether the supplied code
matches, and the expired entry is evicted from the cache — but the
failure is the same generic "OTP not generated or expired" response
used when no entry exists, not a distinct `OtpExpired` error. -/
theorem C6_amended_thm (cache : OtpCache) (store : UserStore)
    (email : String) (d : OtpData) (supplied now : Nat)
    (hwf : cacheWF cache) (he : email ≠ "") (hs : supplied ≠ 0)
    (hget : mapGet cache email = some d)
    (hexp : now - d.timestamp > OTP_EXPIRY_TIME) :
    verifyOtp email supplied now store cache
      = (.err 400 "OTP not generated or expired", store,
          cleanExpiredOtps now cache) ∧
    mapGet (cleanExpiredOtps now cache) email = none ∧
    (verifyOtp email supplied now store cache).1
      = (verifyOtp email supplied now store (mapDelete cache email)).1 := by
  have h1 := mapGet_clean_expired now cache email d hwf hget hexp
  have hmain : verifyOtp email supplied now store cache
      = (.err 400 "OTP not generated or expired", store,
          cleanExpiredOtps now cache) := by
    simp [verifyOtp, he, hs, h1]
  have hother := verifyOtp_no_entry email supplied now store
    (mapDelete cache email) he hs (mapGet_mapDelete_self cache email)
  exact ⟨hmain, h1, by rw [hmain, hother]⟩

theorem C6_amended_witness :
    verifyOtp "alice@x.com" 123456 600001 []
        [("alice@x.com", OtpData.mk 123456 0)]
      = (.err 400 "OTP not generated or expired", [],
          cleanExpiredOtps 600001 [("alice@x.com", OtpData.mk 123456 0)]) ∧
    mapGet (cleanExpiredOtps 600001 [("alice@x.com", OtpData.mk 123456 0)])
        "alice@x.com" = none ∧
    (verifyOtp "alice@x.com" 123456 600001 []
        [("alice@x.com", OtpData.mk 123456 0)]).1
      = (verifyOtp "alice@x.com" 123456 600001 []
          (mapDelete [("alice@x.com", OtpData.mk 123456 0)] "alice@x.com")).1 :=
  C6_amended_thm [("alice@x.com", OtpData.mk 123456 0)] [] "alice@x.com"
    (OtpData.mk 123456 0) 123456 600001 (by decide) (by decide) (by decide)
    (by decide) (by decide)

/-- C10: `verifyOtp` deletes the cache entry before attempting the
account update, so when the code matches a live entry but the account is
absent, the call returns the account-not-found error with the entry
already consumed, and a repeat verify with the same code fails as if no
OTP exists — the cache mutation is not rolled back. -/
theorem C10_thm (cache : OtpCache) (store : UserStore) (email : String)
    (d : OtpData) (tV t2 : Nat)
    (he : email ≠ "") (hpos : d.otp ≠ 0)
    (hget : mapGet cache email = some d)
    (hlive : tV - d.timestamp ≤ OTP_EXPIRY_TIME)
    (habsent : findOne store email = none) :
    verifyOtp email d.otp tV store cache
      = (.err 404 "User not found", store,
          mapDelete (cleanExpiredOtps tV cache) email) ∧
    mapGet (mapDelete (cleanExpiredOtps tV cache) email) email = none ∧
    (verifyOtp email d.otp t2 store
        (mapDelete (cleanExpiredOtps tV cache) email)).1
      = .err 400 "OTP not generated or expired" := by
  refine ⟨verifyOtp_match_absent email tV store cache d he hpos hget hlive
    habsent, mapGet_mapDelete_self _ _, ?_⟩
  rw [verifyOtp_no_entry email d.otp t2 store
    (mapDelete (cleanExpiredOtps tV cache) email) he hpos
    (mapGet_mapDelete_self _ _)]

theorem C10_witness :
    verifyOtp "alice@x.com" (OtpData.mk 123456 0).otp 0 []
        [("alice@x.com", OtpData.mk 123456 0)]
      = (.err 404 "User not found", [],
          mapDelete (cleanExpiredOtps 0 [("alice@x.com", OtpData.mk 123456 0)])
            "alice@x.com") ∧
    mapGet (mapDelete (cleanExpiredOtps 0
        [("alice@x.com", OtpData.mk 123456 0)]) "alice@x.com") "alice@x.com"
      = none ∧
    (verifyOtp "alice@x.com" (OtpData.mk 123456 0).otp 0 []
        (mapDelete (cleanExpiredOtps 0 [("alice@x.com", OtpData.mk 123456 0)])
          "alice@x.com")).1
      = .err 400 "OTP not generated or expired" :=
  C10_thm [("alice@x.com", OtpData.mk 123456 0)] [] "alice@x.com"
    (OtpData.mk 123456 0) 0 0 (by decide) (by decide) (by decide) (by decide)
    rfl

end AuthBackend
